import Mathlib

/-!
# WeatherApp — verification of the station-to-observation enrichment workflow

Shallow embedding of the two near-duplicate screens of the repository
(`src/App.js` and the unnamed variant `src/unnamed/part_000`): the unit
converters, the station-directory load, the observation fetch/classification
inside `handleMarkerPress`, and the callout view-model state machine.

JavaScript semantics modelled explicitly:
* `Math.round x` rounds half toward positive infinity: `⌊x + 1/2⌋`.
* The `%` operator on integers is the truncated remainder (`Int.tmod`),
  which is negative for a negative dividend.
* Array indexing out of bounds (including a negative index) yields
  `undefined`, modelled as `none`.
* `x != null` is true exactly when `x` is neither `null` nor `undefined`;
  both are modelled as `none`.
* Member access `o.f` on a `null`/`undefined` object throws a `TypeError`,
  which inside a `try` block transfers control to the `catch` handler.
-/

namespace WeatherApp

/-- JavaScript `Math.round`: nearest integer, ties toward positive infinity,
i.e. the floor of `x + 1/2` (stated executably via `Rat.floor`). -/
def jsRound (x : ℚ) : ℤ := (x + 1 / 2).floor

/-- The ordered 8-label compass table of `degreesToCardinal`
(`src/App.js` line 13, `src/unnamed/part_000` line 11). -/
def directions : List String := ["N", "NE", "E", "SE", "S", "SW", "W", "NW"]

/-- JavaScript array indexing with an integer index: `undefined` (`none`) when
the index is negative or at/past the end of the array. -/
def jsListGet (l : List String) (i : ℤ) : Option String :=
  if 0 ≤ i then l[i.toNat]? else none

/-- The index expression `Math.round(deg / 45) % 8` of `degreesToCardinal`;
JavaScript `%` is the truncated remainder `Int.tmod`. -/
def cardinalIndex (deg : ℚ) : ℤ := (jsRound (deg / 45)).tmod 8

/-- `degreesToCardinal` (`src/App.js` lines 11–15, `src/unnamed/part_000`
lines 9–13): null input propagates; otherwise the table is indexed at
`Math.round(deg / 45) % 8`. -/
def degreesToCardinal (deg : Option ℚ) : Option String :=
  match deg with
  | none => none
  | some d => jsListGet directions (cardinalIndex d)

/-- The wind-speed conversion `props.windSpeed?.value != null ?
Math.round(props.windSpeed.value * 2.237) : null`
(`src/App.js` line 55, `src/unnamed/part_000` line 58). -/
def metersPerSecondToMph (mps : Option ℚ) : Option ℤ :=
  match mps with
  | none => none
  | some v => some (jsRound (v * (2.237 : ℚ)))

/-- The humidity rounding `props.relativeHumidity?.value != null ?
Math.round(props.relativeHumidity.value) : null`
(`src/App.js` line 59, `src/unnamed/part_000` line 60). -/
def roundPercent (pct : Option ℚ) : Option ℤ :=
  match pct with
  | none => none
  | some v => some (jsRound v)

/-- JavaScript `toFixed(1)` on an exact rational: the nearest multiple of
1/10 (ties toward the larger value), printed with one decimal digit. -/
def toFixed1 (x : ℚ) : String :=
  let n : ℤ := jsRound (x * 10)
  if n < 0 then "-" ++ toString ((-n) / 10) ++ "." ++ toString ((-n) % 10)
  else toString (n / 10) ++ "." ++ toString (n % 10)

/-- A screen point returned by `mapRef.current.pointForCoordinate`. -/
structure Point where
  x : ℚ
  y : ℚ
deriving DecidableEq, Repr

/-- A station feature from the station-list response: `properties.stationIdentifier`
(possibly null), `properties.name`, and the `geometry.coordinates` pair. -/
structure Station where
  stationIdentifier : Option String
  name : String
  longitude : ℚ
  latitude : ℚ
deriving DecidableEq, Repr

/-- A nested measurement field of the observation payload, an object with a
nullable `value` member (e.g. `temperature`, `windSpeed`). -/
structure Quantity where
  value : Option ℚ
deriving DecidableEq, Repr

/-- The `properties` object of an observation response. Each measurement field
may itself be absent (`none`), modelling a null/undefined member on which a
plain `.value` access throws. -/
structure ObsProperties where
  temperature : Option Quantity
  textDescription : Option String
  windSpeed : Option Quantity
  windDirection : Option Quantity
  relativeHumidity : Option Quantity
deriving DecidableEq, Repr

/-- Optional chaining `q?.value`: `undefined` when the object is absent,
otherwise its (nullable) `value`. -/
def chainValue (q : Option Quantity) : Option ℚ :=
  match q with
  | none => none
  | some q => q.value

/-- Outcome of the latest-observation request: either the transport layer
throws (network/parse error), or a response arrives whose `data`, and then
`data.properties`, may each be missing/falsy. -/
inductive FetchResult where
  | transportError
  | ok (data : Option (Option ObsProperties))
deriving DecidableEq, Repr

/-- The `weather` object built in the success branch of `handleMarkerPress`
(`src/App.js` lines 61–72, `src/unnamed/part_000` lines 62–73). -/
structure Weather where
  temp : String
  conditions : Option String
  windSpeed : Option ℤ
  windDirection : Option String
  humidity : Option ℤ
deriving DecidableEq, Repr

/-- The argument objects passed to `setCalloutData`; absent members are `none`. -/
structure CalloutData where
  stationName : String
  position : Point
  loading : Bool
  weather : Option Weather
  error : Option String
deriving DecidableEq, Repr

/-- The `Loading` view-model published right after the projection
(`src/App.js` lines 41–45). -/
def loadingCallout (name : String) (pt : Point) : CalloutData :=
  { stationName := name, position := pt, loading := true,
    weather := none, error := none }

/-- The `Ready` view-model of the success branch (`src/App.js` lines 61–72). -/
def readyCallout (name : String) (pt : Point) (w : Weather) : CalloutData :=
  { stationName := name, position := pt, loading := false,
    weather := some w, error := none }

/-- The error view-models of the else branch and the catch handler
(`src/App.js` lines 74 and 78). -/
def errorCallout (name : String) (pt : Point) (msg : String) : CalloutData :=
  { stationName := name, position := pt, loading := false,
    weather := none, error := some msg }

/-- The derived `weather` fields (`src/App.js` lines 55–69): wind speed,
wind direction and humidity are each guarded only by their own source field;
`temp` is `(props.temperature.value * 9/5 + 32).toFixed(1)`. -/
def mkWeather (p : ObsProperties) (tempVal : ℚ) : Weather :=
  { temp := toFixed1 (tempVal * 9 / 5 + 32)
  , conditions := p.textDescription
  , windSpeed := metersPerSecondToMph (chainValue p.windSpeed)
  , windDirection := degreesToCardinal (chainValue p.windDirection)
  , humidity := roundPercent (chainValue p.relativeHumidity) }

/-- The continuation of `handleMarkerPress` once the observation request has
settled (`src/App.js` lines 47–79, identical in `src/unnamed/part_000` lines
52–80). The guard is `response.data && response.data.properties &&
response.data.properties.temperature.value != null`: a falsy `data` or
`properties` fails the guard (else branch, "No recent observation."), but a
missing `temperature` object makes the `.value` access throw a `TypeError`
inside the `try`, landing in the catch handler ("Fetch failed."). -/
def resolveCallout (name : String) (pt : Point) (r : FetchResult) : CalloutData :=
  match r with
  | .transportError => errorCallout name pt "Fetch failed."
  | .ok none => errorCallout name pt "No recent observation."
  | .ok (some none) => errorCallout name pt "No recent observation."
  | .ok (some (some p)) =>
    match p.temperature with
    | none => errorCallout name pt "Fetch failed."
    | some t =>
      match t.value with
      | none => errorCallout name pt "No recent observation."
      | some v => readyCallout name pt (mkWeather p v)

/-- A view-model is `Ready` when it carries a `weather` object. -/
def isReady (c : CalloutData) : Bool := c.weather.isSome

/-- The `NotAvailable` classification: the "No recent observation." message. -/
def isNotAvailable (c : CalloutData) : Bool :=
  c.error == some "No recent observation."

/-- The `FetchFailed` classification: the "Fetch failed." message. -/
def isFetchFailed (c : CalloutData) : Bool :=
  c.error == some "Fetch failed."

/-- Events that mutate the `calloutData` state of the screen: the `Loading`
publication of `handleMarkerPress` after the projection resolves, the
publication its fetch continuation makes when the request settles, and the
map-background tap (`onPress` of the `MapView`, `src/App.js` line 97). -/
inductive Event where
  | markerStart (s : Station) (pt : Point)
  | markerResolve (s : Station) (pt : Point) (r : FetchResult)
  | backgroundTap
deriving DecidableEq, Repr

/-- One `setCalloutData` call. Every publication is unconditional: no branch
inspects the current state, so there is no identifier guard anywhere. -/
def step (_st : Option CalloutData) (e : Event) : Option CalloutData :=
  match e with
  | .markerStart s pt => some (loadingCallout s.name pt)
  | .markerResolve s pt r => some (resolveCallout s.name pt r)
  | .backgroundTap => none

/-- Run a sequence of interleaved events against the callout state. -/
def run (st : Option CalloutData) (es : List Event) : Option CalloutData :=
  es.foldl step st

/-- The two view-models a single `handleMarkerPress` invocation publishes, in
program order: the `Loading` one (before the fetch is issued) and the resolved
one; both close over the single `point` constant of the invocation. -/
def handlerPublished (s : Station) (pt : Point) (r : FetchResult) : List CalloutData :=
  [loadingCallout s.name pt, resolveCallout s.name pt r]

/-- Outcome of the station-list request: transport error, a response with a
null/undefined `data` (on which `.features` access throws), or a response
whose `data.features` may be missing (`none`) or an array. -/
inductive StationsResponse where
  | netError
  | dataNull
  | ok (features : Option (List Station))
deriving Repr

/-- What the directory load leaves behind: the `stations` state (which
`setStations(response.data.features)` can set to `undefined`, modelled as
`none`), whether `console.error` ran, and the `loading` flag. -/
structure DirectoryResult where
  stations : Option (List Station)
  logged : Bool
  loading : Bool
deriving DecidableEq, Repr

/-- `fetchStations` of `src/App.js` (lines 23–35): no filter; the fetched
`features` member is stored as-is, so a payload without `features` stores
`undefined` without any error being caught; any throw (network error, or the
`.features` access on null data) is logged and leaves `stations` at its
initial `[]`; `finally` always clears `loading`. -/
def fetchStations (r : StationsResponse) : DirectoryResult :=
  match r with
  | .netError => { stations := some [], logged := true, loading := false }
  | .dataNull => { stations := some [], logged := true, loading := false }
  | .ok f => { stations := f, logged := false, loading := false }

/-- The regex test `/^K[A-Z]{3}$/.test(id)` of `src/unnamed/part_000` line 29. -/
def testKPattern (s : String) : Bool :=
  match s.data with
  | [c0, c1, c2, c3] => c0 == 'K' && c1.isUpper && c2.isUpper && c3.isUpper
  | _ => false

/-- The filter predicate `id && /^K[A-Z]{3}$/.test(id)` of
`src/unnamed/part_000` lines 28–29; a null identifier (and the falsy empty
string) short-circuits to exclusion. -/
def keepId (id : Option String) : Bool :=
  match id with
  | none => false
  | some s => (s != "") && testKPattern s

/-- The station-level filter callback of `src/unnamed/part_000` lines 27–30. -/
def keepStation (s : Station) : Bool := keepId s.stationIdentifier

/-- `fetchAndFilterStations` of `src/unnamed/part_000` (lines 21–40): like
`fetchStations` but `response.data.features.filter(...)` is applied, so a
payload without `features` throws (`undefined.filter`) and is caught and
logged, leaving `stations` at its initial `[]`. -/
def fetchAndFilterStations (r : StationsResponse) : DirectoryResult :=
  match r with
  | .netError => { stations := some [], logged := true, loading := false }
  | .dataNull => { stations := some [], logged := true, loading := false }
  | .ok none => { stations := some [], logged := true, loading := false }
  | .ok (some fs) =>
    { stations := some (fs.filter keepStation), logged := false, loading := false }

/-- Sample screen point used by the concrete scenarios. -/
def pt0 : Point := { x := 120, y := 80 }

/-- Sample station used by the concrete scenarios. -/
def stationA : Station :=
  { stationIdentifier := some "KJFK", name := "JFK Airport",
    longitude := -73, latitude := 40 }

/-- The label the specification's wording assigns to a degree value: the entry
at index `round(deg / 45) mod 8` of the ordered list, with `mod` read as the
mathematical (always nonnegative) modulo that the spec asserts keeps the index
in `[0, 8)`. Written to be compared with the source-derived
`degreesToCardinal`. -/
def specCardinalLabel (deg : ℚ) : String :=
  directions.getD (jsRound (deg / 45) % 8).toNat ""

/-- A fetch outcome carrying a payload whose `temperature.value` is non-null. -/
def hasTemperatureValue (r : FetchResult) : Prop :=
  ∃ p t v, r = FetchResult.ok (some (some p)) ∧
    p.temperature = some t ∧ t.value = some v

/-- Observation payload whose `temperature` member is present with
`value = null`. -/
def obsTempNull : ObsProperties :=
  { temperature := some { value := none }, textDescription := none,
    windSpeed := none, windDirection := none, relativeHumidity := none }

/-- Observation payload lacking the `temperature` member entirely (the rest of
the payload is present). -/
def obsNoTempField : ObsProperties :=
  { temperature := none, textDescription := some "Cloudy",
    windSpeed := some { value := some 5 },
    windDirection := some { value := some 90 },
    relativeHumidity := some { value := some 50 } }

/-- Observation payload with all sources present but a negative wind
direction. -/
def obsNegWindDir : ObsProperties :=
  { temperature := some { value := some 20 }, textDescription := none,
    windSpeed := some { value := some 10 },
    windDirection := some { value := some (-45) },
    relativeHumidity := some { value := some 50 } }

/-- Observation payload with all three derived-field sources present and a
nonnegative wind direction. -/
def obsAllPresent : ObsProperties :=
  { temperature := some { value := some 20 }, textDescription := some "Sunny",
    windSpeed := some { value := some 10 },
    windDirection := some { value := some 90 },
    relativeHumidity := some { value := some 50 } }

/- Helper lemmas shared between claims. -/

/-- `jsRound` is the mathematical floor of `x + 1/2`. -/
theorem jsRound_eq_floor (x : ℚ) : jsRound x = ⌊x + 1 / 2⌋ :=
  (Rat.floor_def' (x + 1 / 2)).trans Rat.floor_def.symm

/-- `Math.round` of a nonnegative rational is nonnegative. -/
theorem jsRound_nonneg (x : ℚ) (h : 0 ≤ x) : 0 ≤ jsRound x := by
  rw [jsRound_eq_floor]
  exact Int.le_floor.mpr (by push_cast; linarith)

/-- For a nonnegative degree value the JavaScript index expression lands in
`[0, 8)` and agrees with the mathematical modulo. -/
theorem cardinalIndex_bounds (deg : ℚ) (h : 0 ≤ deg) :
    0 ≤ cardinalIndex deg ∧ cardinalIndex deg < 8 ∧
      cardinalIndex deg = jsRound (deg / 45) % 8 := by
  have hr : 0 ≤ jsRound (deg / 45) :=
    jsRound_nonneg _ (by positivity)
  exact ⟨Int.tmod_nonneg 8 hr, Int.tmod_lt_of_pos _ (by norm_num),
    Int.tmod_eq_emod hr (by norm_num)⟩

/-- For a nonnegative degree value the table lookup succeeds with a label of
the table, namely the one the spec's modulo formula selects. -/
theorem degreesToCardinal_nonneg (deg : ℚ) (h : 0 ≤ deg) :
    degreesToCardinal (some deg) = some (specCardinalLabel deg) ∧
      specCardinalLabel deg ∈ directions := by
  obtain ⟨h0, h8, heq⟩ := cardinalIndex_bounds deg h
  have hlen : (cardinalIndex deg).toNat < directions.length := by
    simp only [directions, List.length]
    omega
  have hget : degreesToCardinal (some deg) = some (directions[(cardinalIndex deg).toNat]) := by
    simp [degreesToCardinal, jsListGet, h0, List.getElem?_eq_getElem hlen]
  have hspec : specCardinalLabel deg = directions[(cardinalIndex deg).toNat] := by
    rw [specCardinalLabel, ← heq, List.getD_eq_getElem?_getD,
      List.getElem?_eq_getElem hlen, Option.getD_some]
  exact ⟨by rw [hget, hspec], hspec ▸ List.getElem_mem hlen⟩

/-- Every branch of the fetch continuation publishes the selected station's
name. -/
theorem resolveCallout_stationName (name : String) (pt : Point) (r : FetchResult) :
    (resolveCallout name pt r).stationName = name := by
  rcases r with _ | (_ | (_ | p))
  · rfl
  · rfl
  · rfl
  · rcases hp : p.temperature with _ | t
    · simp [resolveCallout, hp, errorCallout]
    · rcases ht : t.value with _ | v <;>
        simp [resolveCallout, hp, ht, errorCallout, readyCallout]

/-- Every branch of the fetch continuation publishes the anchor point the
handler computed before the fetch. -/
theorem resolveCallout_position (name : String) (pt : Point) (r : FetchResult) :
    (resolveCallout name pt r).position = pt := by
  rcases r with _ | (_ | (_ | p))
  · rfl
  · rfl
  · rfl
  · rcases hp : p.temperature with _ | t
    · simp [resolveCallout, hp, errorCallout]
    · rcases ht : t.value with _ | v <;>
        simp [resolveCallout, hp, ht, errorCallout, readyCallout]

/-- C9: the meters-per-second-to-mph conversion returns null on null input,
otherwise `Math.round(mps * 2.237)`; in particular it maps 10 to 22. -/
theorem metersPerSecondToMph_spec :
    metersPerSecondToMph none = none ∧
    (∀ v : ℚ, metersPerSecondToMph (some v) = some (jsRound (v * (2.237 : ℚ)))) ∧
    metersPerSecondToMph (some 10) = some 22 :=
  ⟨rfl, fun _ => rfl, by with_unfolding_all decide⟩

/-- C1: after selecting station A then station B, with B's fetch resolving
first and A's fetch resolving last, the resolution is applied with no
identifier guard, so the final view-model is A's resolved view-model and its
`stationName` is A's name, overwriting B's. The handler is line-identical in
both variants, so one embedding covers both. -/
theorem stale_resolution_overwrites (A B : Station) (ptA ptB : Point)
    (rA rB : FetchResult) :
    run none [Event.markerStart A ptA, Event.markerStart B ptB,
      Event.markerResolve B ptB rB, Event.markerResolve A ptA rA] =
      some (resolveCallout A.name ptA rA) ∧
    Option.map CalloutData.stationName
      (run none [Event.markerStart A ptA, Event.markerStart B ptB,
        Event.markerResolve B ptB rB, Event.markerResolve A ptA rA]) =
      some A.name := by
  refine ⟨rfl, ?_⟩
  simp [run, step, resolveCallout_stationName]

/-- C4 (amended): a background tap clears the callout to Idle immediately and
unconditionally, but an in-flight fetch's resolution is NOT discarded: its
continuation unconditionally publishes its view-model whatever the current
state is, re-displaying the callout after dismissal. -/
theorem dismissal_and_resolution (st : Option CalloutData) (s : Station)
    (pt : Point) (r : FetchResult) :
    step st Event.backgroundTap = none ∧
    step st (Event.markerResolve s pt r) = some (resolveCallout s.name pt r) :=
  ⟨rfl, rfl⟩

/-- C4 counterexample: dismissing during an in-flight fetch does transition to
Idle, but when that fetch settles its result is displayed after all. -/
theorem dismissal_counterexample :
    run none [Event.markerStart stationA pt0, Event.backgroundTap] = none ∧
    run none [Event.markerStart stationA pt0, Event.backgroundTap,
      Event.markerResolve stationA pt0 FetchResult.transportError] =
      some (errorCallout "JFK Airport" pt0 "Fetch failed.") :=
  ⟨rfl, rfl⟩

/-- C6: both view-models a marker selection publishes carry the one anchor
point computed at selection time, and the first published view-model is the
Loading one carrying that anchor, ahead of the fetch resolution. -/
theorem anchor_computed_once (s : Station) (pt : Point) (r : FetchResult) :
    (handlerPublished s pt r).map CalloutData.position = [pt, pt] ∧
    (handlerPublished s pt r).head? = some (loadingCallout s.name pt) := by
  refine ⟨?_, rfl⟩
  simp [handlerPublished, loadingCallout, resolveCallout_position]

/-- C5 counterexample: in the `src/App.js` variant a malformed payload (a
response whose `data.features` is missing) is not a caught failure: nothing is
logged and `stations` is set to `undefined`, not to an empty collection. -/
theorem directory_malformed_counterexample :
    (fetchStations (StationsResponse.ok none)).logged = false ∧
    (fetchStations (StationsResponse.ok none)).stations = none ∧
    (fetchStations (StationsResponse.ok none)).loading = false :=
  ⟨rfl, rfl, rfl⟩

/-- C5 (amended): every thrown failure (network error, `.features` access on
null data, and — in the filtered variant only — the `undefined.filter` throw
on a payload without `features`) is logged, leaves the station collection
empty, and still transitions from Loading to Ready; in the unfiltered
`src/App.js` variant a payload without `features` instead silently stores
`undefined`; in every case `loading` ends up false. -/
theorem directory_failure_behaviour :
    fetchStations StationsResponse.netError =
      { stations := some [], logged := true, loading := false } ∧
    fetchStations StationsResponse.dataNull =
      { stations := some [], logged := true, loading := false } ∧
    fetchAndFilterStations StationsResponse.netError =
      { stations := some [], logged := true, loading := false } ∧
    fetchAndFilterStations StationsResponse.dataNull =
      { stations := some [], logged := true, loading := false } ∧
    fetchAndFilterStations (StationsResponse.ok none) =
      { stations := some [], logged := true, loading := false } ∧
    (∀ r : StationsResponse, (fetchStations r).loading = false ∧
      (fetchAndFilterStations r).loading = false) := by
  refine ⟨rfl, rfl, rfl, rfl, rfl, fun r => ?_⟩
  rcases r with _ | _ | (_ | fs) <;> exact ⟨rfl, rfl⟩

/-- C3 counterexample: at `deg = -45` the JavaScript index
`Math.round(-45 / 45) % 8` is `-1` — outside `[0, 8)` — and the array lookup
yields `undefined` rather than one of the 8 labels. -/
theorem cardinal_negative_counterexample :
    cardinalIndex (-45) = -1 ∧ degreesToCardinal (some (-45)) = none := by
  with_unfolding_all decide

/-- C3 (amended): for every NONNEGATIVE input the index
`Math.round(deg / 45) % 8` lies in `[0, 8)` and the lookup returns one of the
8 labels of the table; that guarantee does not extend to all negative inputs:
there are negative inputs (such as `-45`, whose index is `-1`) where the
truncated JavaScript `%` makes the index negative and the array lookup falls
outside the table, returning `undefined`. -/
theorem cardinal_index_in_range :
    (∀ deg : ℚ, 0 ≤ deg →
      0 ≤ cardinalIndex deg ∧ cardinalIndex deg < 8 ∧
        ∃ lbl, degreesToCardinal (some deg) = some lbl ∧ lbl ∈ directions) ∧
    (∃ deg : ℚ, deg < 0 ∧ cardinalIndex deg < 0 ∧
      degreesToCardinal (some deg) = none) := by
  constructor
  · intro deg h
    obtain ⟨h0, h8, _⟩ := cardinalIndex_bounds deg h
    obtain ⟨heq, hmem⟩ := degreesToCardinal_nonneg deg h
    exact ⟨h0, h8, specCardinalLabel deg, heq, hmem⟩
  · exact ⟨-45, by with_unfolding_all decide, by with_unfolding_all decide,
      by with_unfolding_all decide⟩

/-- C3 witness: the amended theorem's universal clause at the concrete
input 90. -/
theorem cardinal_index_in_range_witness :
    0 ≤ cardinalIndex 90 ∧ cardinalIndex 90 < 8 ∧
      ∃ lbl, degreesToCardinal (some 90) = some lbl ∧ lbl ∈ directions :=
  cardinal_index_in_range.1 90 (by with_unfolding_all decide)

/-- C7 counterexample: at `deg = -45` the spec's modulo formula selects the
label "NW", but `degreesToCardinal` returns `undefined` (`none`) because the
JavaScript index is `-1`. -/
theorem cardinal_spec_disagreement :
    specCardinalLabel (-45) = "NW" ∧ degreesToCardinal (some (-45)) = none := by
  with_unfolding_all decide

/-- C7 (amended): `degreesToCardinal` maps 0 to "N", 45 to "NE", 360 to "N"
(wrap-around) and null to null, and for every NONNEGATIVE input it returns the
label at index `round(deg / 45) mod 8` of the ordered table; that does not
extend to all negative inputs: at `-45` it returns `undefined` (the truncated
JavaScript `%` gives index `-1`) while the modulo formula selects "NW". -/
theorem degreesToCardinal_spec :
    degreesToCardinal none = none ∧
    degreesToCardinal (some 0) = some "N" ∧
    degreesToCardinal (some 45) = some "NE" ∧
    degreesToCardinal (some 360) = some "N" ∧
    (∀ deg : ℚ, 0 ≤ deg →
      degreesToCardinal (some deg) = some (specCardinalLabel deg)) ∧
    (degreesToCardinal (some (-45)) = none ∧ specCardinalLabel (-45) = "NW") :=
  ⟨rfl, by with_unfolding_all decide, by with_unfolding_all decide,
    by with_unfolding_all decide, fun deg h => (degreesToCardinal_nonneg deg h).1,
    by with_unfolding_all decide, by with_unfolding_all decide⟩

/-- C7 witness: the amended theorem's universal clause at the concrete
input 90. -/
theorem degreesToCardinal_spec_witness :
    degreesToCardinal (some 90) = some (specCardinalLabel 90) :=
  degreesToCardinal_spec.2.2.2.2.1 90 (by with_unfolding_all decide)

/-- C2 counterexample: a payload that is present but lacks the `temperature`
member entirely is classified "Fetch failed." (the `.value` access throws into
the catch handler), not "No recent observation.". -/
theorem missing_temperature_counterexample :
    isFetchFailed (resolveCallout "JFK Airport" pt0
      (FetchResult.ok (some (some obsNoTempField)))) = true ∧
    isNotAvailable (resolveCallout "JFK Airport" pt0
      (FetchResult.ok (some (some obsNoTempField)))) = false := by
  with_unfolding_all decide

/-- C2 (amended): a payload whose `temperature` member is present with a null
`value` is classified NotAvailable ("No recent observation."); any outcome
without a non-null temperature value is never Ready; but a payload lacking the
`temperature` member entirely lands in the transport-level FetchFailed
classification, which is the one produced for a network/parse error. -/
theorem observation_classification (name : String) (pt : Point) :
    (∀ p : ObsProperties, ∀ t : Quantity, p.temperature = some t →
      t.value = none →
      resolveCallout name pt (FetchResult.ok (some (some p))) =
        errorCallout name pt "No recent observation.") ∧
    (∀ r : FetchResult, ¬ hasTemperatureValue r →
      isReady (resolveCallout name pt r) = false) ∧
    isFetchFailed (resolveCallout name pt FetchResult.transportError) = true ∧
    isNotAvailable (resolveCallout name pt FetchResult.transportError) = false := by
  refine ⟨fun p t hp ht => ?_, fun r hr => ?_, by simp [resolveCallout, errorCallout, isFetchFailed], by simp [resolveCallout, errorCallout, isNotAvailable]⟩
  · simp [resolveCallout, hp, ht]
  · rcases r with _ | (_ | (_ | p))
    · simp [resolveCallout, errorCallout, isReady]
    · simp [resolveCallout, errorCallout, isReady]
    · simp [resolveCallout, errorCallout, isReady]
    · rcases hp : p.temperature with _ | t
      · simp [resolveCallout, hp, errorCallout, isReady]
      · rcases ht : t.value with _ | v
        · simp [resolveCallout, hp, ht, errorCallout, isReady]
        · exact absurd ⟨p, t, v, rfl, hp, ht⟩ hr

/-- C2 witness: the amended theorem at a concrete name, point, null-valued
temperature payload, and transport error. -/
theorem observation_classification_witness :
    resolveCallout "JFK Airport" pt0 (FetchResult.ok (some (some obsTempNull))) =
      errorCallout "JFK Airport" pt0 "No recent observation." ∧
    isReady (resolveCallout "JFK Airport" pt0 FetchResult.transportError) = false :=
  ⟨(observation_classification "JFK Airport" pt0).1 obsTempNull { value := none }
      rfl rfl,
   (observation_classification "JFK Airport" pt0).2.1 FetchResult.transportError
      (fun h => by
        obtain ⟨p, t, v, hEq, _, _⟩ := h
        exact FetchResult.noConfusion hEq)⟩

/-- C10 counterexample: with all three sources present but a negative wind
direction, the derived wind-direction field is null although its source is
non-null, so the presence combination of the derived fields does not match
that of the sources. -/
theorem derived_fields_counterexample :
    (chainValue obsNegWindDir.windDirection).isSome = true ∧
    (mkWeather obsNegWindDir 20).windDirection = none ∧
    (mkWeather obsNegWindDir 20).windSpeed = some 22 ∧
    (mkWeather obsNegWindDir 20).humidity = some 50 := by
  with_unfolding_all decide

/-- C10 (amended): the derived wind-speed and humidity fields are non-null
exactly when their own source is non-null, independently of siblings; the
derived wind-direction field is null whenever its source is null, and is
non-null whenever its source is present with a NONNEGATIVE value — but not
every presence combination of the sources carries over: there is a payload
with all three sources present (wind direction `-45`) whose derived
wind-direction field is null. -/
theorem derived_fields_null_safety :
    (∀ (p : ObsProperties) (v : ℚ),
      (mkWeather p v).windSpeed.isSome = (chainValue p.windSpeed).isSome ∧
      (mkWeather p v).humidity.isSome = (chainValue p.relativeHumidity).isSome ∧
      ((mkWeather p v).windDirection.isSome = true →
        (chainValue p.windDirection).isSome = true) ∧
      (∀ d : ℚ, chainValue p.windDirection = some d → 0 ≤ d →
        (mkWeather p v).windDirection.isSome = true)) ∧
    (∃ p : ObsProperties,
      (chainValue p.windSpeed).isSome = true ∧
      (chainValue p.windDirection).isSome = true ∧
      (chainValue p.relativeHumidity).isSome = true ∧
      (mkWeather p 20).windDirection = none) := by
  constructor
  · intro p v
    refine ⟨?_, ?_, ?_, ?_⟩
    · rcases h : chainValue p.windSpeed with _ | w <;>
        simp [mkWeather, metersPerSecondToMph, h]
    · rcases h : chainValue p.relativeHumidity with _ | w <;>
        simp [mkWeather, roundPercent, h]
    · intro hd
      rcases h : chainValue p.windDirection with _ | d
      · simp [mkWeather, degreesToCardinal, h] at hd
      · simp [h]
    · intro d hd h0
      obtain ⟨heq, _⟩ := degreesToCardinal_nonneg d h0
      simp [mkWeather, hd, heq]
  · exact ⟨obsNegWindDir, by with_unfolding_all decide,
      by with_unfolding_all decide, by with_unfolding_all decide,
      by with_unfolding_all decide⟩

/-- C10 witness: the amended theorem's universal clause at the all-present
payload with a nonnegative direction, all hypotheses discharged. -/
theorem derived_fields_null_safety_witness :
    (mkWeather obsAllPresent 20).windSpeed.isSome =
      (chainValue obsAllPresent.windSpeed).isSome ∧
    (mkWeather obsAllPresent 20).humidity.isSome =
      (chainValue obsAllPresent.relativeHumidity).isSome ∧
    (mkWeather obsAllPresent 20).windDirection.isSome = true :=
  ⟨(derived_fields_null_safety.1 obsAllPresent 20).1,
   (derived_fields_null_safety.1 obsAllPresent 20).2.1,
   (derived_fields_null_safety.1 obsAllPresent 20).2.2.2 90 rfl
     (by with_unfolding_all decide)⟩

/-- Characterization of the regex test: a match is exactly a 4-character
string "K" followed by three uppercase ASCII letters. -/
theorem testKPattern_iff (s : String) :
    testKPattern s = true ↔
      ∃ a b c : Char, s.data = ['K', a, b, c] ∧
        a.isUpper = true ∧ b.isUpper = true ∧ c.isUpper = true := by
  obtain ⟨l⟩ := s
  rcases l with _ | ⟨c0, _ | ⟨c1, _ | ⟨c2, _ | ⟨c3, _ | ⟨c4, l⟩⟩⟩⟩⟩
  · simp [testKPattern]
  · simp [testKPattern]
  · simp [testKPattern]
  · simp [testKPattern]
  · have hK : testKPattern ⟨[c0, c1, c2, c3]⟩ =
        (c0 == 'K' && c1.isUpper && c2.isUpper && c3.isUpper) := rfl
    constructor
    · intro h
      rw [hK] at h
      simp only [Bool.and_eq_true, beq_iff_eq] at h
      obtain ⟨⟨⟨h0, h1⟩, h2⟩, h3⟩ := h
      subst h0
      exact ⟨c1, c2, c3, rfl, h1, h2, h3⟩
    · rintro ⟨a, b, c, hd, ha, hb, hc⟩
      obtain ⟨h0, h1, h2, h3⟩ : c0 = 'K' ∧ c1 = a ∧ c2 = b ∧ c3 = c := by
        injection hd with e0 rest
        injection rest with e1 rest
        injection rest with e2 rest
        injection rest with e3 _
        exact ⟨e0, e1, e2, e3⟩
      subst h0 h1 h2 h3
      rw [hK]
      simp [ha, hb, hc]
  · simp [testKPattern]

/-- The filter predicate characterized: kept exactly when the identifier is a
non-null "K" plus three uppercase letters. -/
theorem keepId_iff (s : String) :
    keepId (some s) = true ↔
      ∃ a b c : Char, s.data = ['K', a, b, c] ∧
        a.isUpper = true ∧ b.isUpper = true ∧ c.isUpper = true := by
  rw [keepId, Bool.and_eq_true, testKPattern_iff]
  constructor
  · exact fun h => h.2
  · rintro ⟨a, b, c, hd, h⟩
    refine ⟨?_, a, b, c, hd, h⟩
    have : s ≠ "" := by
      intro hs
      rw [hs] at hd
      exact List.noConfusion hd
    simpa [bne_iff_ne]

/-- C8: the pattern-constrained variant keeps exactly the stations whose
identifier is a non-null 4-character "K" plus three uppercase letters
("KJFK" and "KDEN" pass; "PHNL", "K1" and null are excluded), while the
`src/App.js` variant stores the fetched features with no filter. -/
theorem station_filter_spec :
    keepId (some "KJFK") = true ∧
    keepId (some "KDEN") = true ∧
    keepId (some "PHNL") = false ∧
    keepId (some "K1") = false ∧
    keepId none = false ∧
    (∀ s : String, keepId (some s) = true ↔
      ∃ a b c : Char, s.data = ['K', a, b, c] ∧
        a.isUpper = true ∧ b.isUpper = true ∧ c.isUpper = true) ∧
    (∀ fs : List Station,
      (fetchStations (StationsResponse.ok (some fs))).stations = some fs) ∧
    (∀ fs : List Station,
      (fetchAndFilterStations (StationsResponse.ok (some fs))).stations =
        some (fs.filter keepStation)) :=
  ⟨by decide, by decide, by decide, by decide, rfl, keepId_iff,
    fun _ => rfl, fun _ => rfl⟩

/-- C8 witness: the characterization applied at the concrete identifier
"KABC", and the no-filter clause at the empty feature list. -/
theorem station_filter_spec_witness :
    keepId (some "KABC") = true ∧
    (fetchStations (StationsResponse.ok (some []))).stations = some [] :=
  ⟨(station_filter_spec.2.2.2.2.2.1 "KABC").mpr
      ⟨'A', 'B', 'C', by decide, rfl, rfl, rfl⟩,
   station_filter_spec.2.2.2.2.2.2.1 []⟩

/-- The temperature conversion and formatting of the success branch at the
spec's sample inputs: 0°C is "32.0" and 100°C is "212.0". -/
theorem toFahrenheit_samples :
    toFixed1 ((0 : ℚ) * 9 / 5 + 32) = "32.0" ∧
    toFixed1 ((100 : ℚ) * 9 / 5 + 32) = "212.0" := by
  with_unfolding_all decide

end WeatherApp
